import Mathlib

/-!
Shallow embedding, in Lean 4, of the MQTT client core found in
src/source/mqtt.c of jonahharris/aws-c-mqtt, together with the private
declarations in src/include/aws/mqtt/private/client_impl.h.

Conventions used throughout:
  * C functions become Lean functions; external effects (allocation,
    message-pool acquisition, packet encoding, channel writes, the
    monotonic clock) are passed in as explicit oracle records whose
    boolean fields say whether the corresponding call succeeds, exactly
    as the C code branches on their return values.
  * Pointers that the code only tests for NULL become Option / Bool.
  * The connection's subscriptions hash table (keyed by the filter
    string, see aws_hash_table_init at src/source/mqtt.c:165) is
    modelled by its key set, a duplicate-free list of filters.  A topic
    filter is modelled as its list of '/'-separated segments, each a
    list of characters; the C code treats the filter as an opaque byte
    array, so only decidable equality of filters matters to it.
  * uint64_t arithmetic is Nat with explicit reduction modulo 2^64
    where the C code can wrap (the clock subtraction in s_pingreq_send).
-/

/-- Result code of fallible aws-c operations: 0 (aws-c-common). -/
def AWS_OP_SUCCESS : Int := 0

/-- Result code of fallible aws-c operations: -1 (aws-c-common). -/
def AWS_OP_ERR : Int := -1

/-- The MQTT error codes raised by this translation unit.  Their numeric
values live in a header outside the provided sources; only their
identity is used by the code modelled here. -/
inductive MqttError where
  | timeout
  | protocolError
  deriving DecidableEq, Repr

/-- 2^64, the modulus of uint64_t arithmetic. -/
def U64_MOD : Nat := 2 ^ 64

/-- uint64_t subtraction a - b with wrap-around, for a, b < 2^64. -/
def u64_sub (a b : Nat) : Nat := (a + (U64_MOD - b % U64_MOD)) % U64_MOD

/-- A topic filter, as the list of its '/'-separated segments (each a
list of characters).  src/source/mqtt.c treats filters as opaque byte
arrays; the segment structure is only consulted by the spec-side
validity predicate. -/
abbrev TopicFilter := List (List Char)

/- ------------------------------------------------------------------
   aws_mqtt_client_connection_disconnect  (src/source/mqtt.c:240-247)
   ------------------------------------------------------------------ -/

/-- The slice of struct aws_mqtt_client_connection that
aws_mqtt_client_connection_disconnect reads: whether the channel slot
pointer is non-NULL. -/
structure DisconnectConn where
  has_slot : Bool
  deriving DecidableEq, Repr

/-- Observable outcome of aws_mqtt_client_connection_disconnect: the
returned int, and the error-code argument of the mqtt_disconnect_impl
call when one was made (the code passes AWS_OP_SUCCESS there). -/
structure DisconnectOutcome where
  result : Int
  disconnect_impl_called : Option Int
  deriving DecidableEq, Repr

/-- src/source/mqtt.c:240-247.  `if (connection && connection->slot)
mqtt_disconnect_impl(connection, AWS_OP_SUCCESS); return
AWS_OP_SUCCESS;`.  The connection pointer is an Option. -/
def aws_mqtt_client_connection_disconnect (connection : Option DisconnectConn) :
    DisconnectOutcome :=
  match connection with
  | none => { result := AWS_OP_SUCCESS, disconnect_impl_called := none }
  | some c =>
      if c.has_slot then
        { result := AWS_OP_SUCCESS, disconnect_impl_called := some AWS_OP_SUCCESS }
      else
        { result := AWS_OP_SUCCESS, disconnect_impl_called := none }

/- ------------------------------------------------------------------
   aws_mqtt_load_error_strings  (src/source/mqtt.c:589-639)
   ------------------------------------------------------------------ -/

/-- The process-global state read and written by
aws_mqtt_load_error_strings: the function-local static guard
s_error_strings_loaded, and the number of aws_register_error_info calls
performed so far. -/
structure ErrorStringsState where
  s_error_strings_loaded : Bool
  register_calls : Nat
  deriving DecidableEq, Repr

/-- Process state at startup: the static guard is zero-initialized. -/
def errorStringsInit : ErrorStringsState :=
  { s_error_strings_loaded := false, register_calls := 0 }

/-- src/source/mqtt.c:589-639.  One call: if the guard is unset, set it
and register the error-info list; otherwise do nothing. -/
def aws_mqtt_load_error_strings (s : ErrorStringsState) : ErrorStringsState :=
  if !s.s_error_strings_loaded then
    { s_error_strings_loaded := true, register_calls := s.register_calls + 1 }
  else
    s

/- ------------------------------------------------------------------
   s_pingreq_send  (src/source/mqtt.c:528-580)
   aws_mqtt_client_ping  (src/source/mqtt.c:582-587)
   ------------------------------------------------------------------ -/

/-- The slice of the connection that s_pingreq_send reads on the
non-first attempt. -/
structure PingConn where
  last_pingresp_timestamp : Nat
  deriving DecidableEq, Repr

/-- External calls made by s_pingreq_send: success of
mqtt_get_message_for_packet, aws_mqtt_packet_connection_encode and
aws_channel_slot_send_message on the first attempt, and the value
aws_channel_current_clock_time stores on later attempts. -/
structure PingOracle where
  get_message_ok : Bool
  encode_ok : Bool
  send_ok : Bool
  current_time : Nat
  deriving DecidableEq, Repr

/-- Observable outcome of one s_pingreq_send invocation: how many
PINGREQ packets were written to the channel, the bool returned to the
request tracker (true removes the request), and the error code of the
mqtt_disconnect_impl call when one was made. -/
structure PingOutcome where
  messages_sent : Nat
  result : Bool
  disconnect_impl_called : Option MqttError
  deriving DecidableEq, Repr

/-- src/source/mqtt.c:528-580.  First attempt: build and encode a
PINGREQ and write it, returning false on success and true on any
failure.  Later attempts: read the clock and, when
current_time - last_pingresp_timestamp exceeds request_timeout_ns
(uint64 arithmetic), call mqtt_disconnect_impl(AWS_ERROR_MQTT_TIMEOUT);
always return true. -/
def s_pingreq_send (is_first_attempt : Bool) (connection : PingConn)
    (io : PingOracle) (request_timeout_ns : Nat) : PingOutcome :=
  if is_first_attempt then
    if !io.get_message_ok then
      { messages_sent := 0, result := true, disconnect_impl_called := none }
    else if !io.encode_ok then
      { messages_sent := 0, result := true, disconnect_impl_called := none }
    else if !io.send_ok then
      { messages_sent := 0, result := true, disconnect_impl_called := none }
    else
      { messages_sent := 1, result := false, disconnect_impl_called := none }
  else
    if u64_sub io.current_time connection.last_pingresp_timestamp > request_timeout_ns then
      { messages_sent := 0, result := true, disconnect_impl_called := some MqttError.timeout }
    else
      { messages_sent := 0, result := true, disconnect_impl_called := none }

/-- Identifier of a send-request function passed to mqtt_create_request
by this translation unit. -/
inductive SendFn where
  | subscribeSend
  | unsubscribeSend
  | publishSend
  | pingreqSend
  deriving DecidableEq, Repr

/-- Identifier of an on-complete function passed to mqtt_create_request
by this translation unit (only s_publish_complete is ever passed). -/
inductive CompleteFn where
  | publishComplete
  deriving DecidableEq, Repr

/-- The (send_request, on_complete) argument pair of one
mqtt_create_request call; on_complete is none when the call passes
NULL. -/
structure CreateRequestArgs where
  send_request : SendFn
  on_complete : Option CompleteFn
  deriving DecidableEq, Repr

/-- src/source/mqtt.c:582-587.
mqtt_create_request(connection, &s_pingreq_send, NULL, connection);
return AWS_OP_SUCCESS;  — the third argument, the on_complete slot, is
NULL. -/
def aws_mqtt_client_ping : CreateRequestArgs × Int :=
  ({ send_request := SendFn.pingreqSend, on_complete := none }, AWS_OP_SUCCESS)

/- ------------------------------------------------------------------
   aws_mqtt_client_subscribe  (src/source/mqtt.c:297-346)
   ------------------------------------------------------------------ -/

/-- External calls made by aws_mqtt_client_subscribe: success of
aws_mem_acquire for the subscription impl, of aws_string_new_from_array
for the filter copy, and of aws_hash_table_put. -/
structure SubscribeOracle where
  impl_alloc_ok : Bool
  filter_alloc_ok : Bool
  put_ok : Bool
  deriving DecidableEq, Repr

/-- Observable outcome of aws_mqtt_client_subscribe: the returned int,
the key set of the connection's subscriptions table afterwards, and the
mqtt_create_request call made, when one was. -/
structure SubscribeOutcome where
  result : Int
  subscriptions : List TopicFilter
  request : Option CreateRequestArgs
  deriving DecidableEq, Repr

/-- src/source/mqtt.c:297-346.  Acquire the impl, copy the filter
string, aws_hash_table_put it into connection->subscriptions (put
stores under the key, replacing any prior entry: the key set gains the
filter), then mqtt_create_request(connection, &s_subscribe_send, NULL,
subscription_impl).  Any failure jumps to handle_error, which frees
what was allocated and returns AWS_OP_ERR; was_created is still 0 on
every path that reaches handle_error, so the table is never touched
there.  No validation of the filter is performed anywhere. -/
def aws_mqtt_client_subscribe (io : SubscribeOracle)
    (subscriptions : List TopicFilter) (topic_filter : TopicFilter) :
    SubscribeOutcome :=
  if !io.impl_alloc_ok then
    { result := AWS_OP_ERR, subscriptions := subscriptions, request := none }
  else if !io.filter_alloc_ok then
    { result := AWS_OP_ERR, subscriptions := subscriptions, request := none }
  else if !io.put_ok then
    { result := AWS_OP_ERR, subscriptions := subscriptions, request := none }
  else
    { result := AWS_OP_SUCCESS,
      subscriptions :=
        if topic_filter ∈ subscriptions then subscriptions
        else topic_filter :: subscriptions,
      request := some { send_request := SendFn.subscribeSend, on_complete := none } }

/-- Validity of a topic filter according to the specification (spec.md
  §4.2): a filter is rejected if '#' is not the final segment or if
either wildcard appears mid-segment (inside a longer segment).  This is
the spec-side predicate; the source performs no such check. -/
def spec_filter_valid : TopicFilter → Bool
  | [] => true
  | [seg] =>
      (!(seg.contains '#') || seg = ['#']) &&
      (!(seg.contains '+') || seg = ['+'])
  | seg :: rest =>
      (!(seg.contains '#')) &&
      (!(seg.contains '+') || seg = ['+']) &&
      spec_filter_valid rest

/- ------------------------------------------------------------------
   aws_mqtt_client_unsubscribe  (src/source/mqtt.c:399-428)
   ------------------------------------------------------------------ -/

/-- Observable outcome of aws_mqtt_client_unsubscribe: the returned
int, the key set of the subscriptions table afterwards, and the
mqtt_create_request call made, when one was. -/
structure UnsubscribeOutcome where
  result : Int
  subscriptions : List TopicFilter
  request : Option CreateRequestArgs
  deriving DecidableEq, Repr

/-- src/source/mqtt.c:399-428.  Copy the filter into an aws_string
(failure of that allocation is filter_alloc_ok = false), look it up in
connection->subscriptions; when the element is absent jump to
handle_error and return AWS_OP_ERR.  When present,
mqtt_create_request(connection, &s_unsubscribe_send, NULL, elem->value)
and return AWS_OP_SUCCESS.  The table itself is only mutated later by
s_unsubscribe_send, never here. -/
def aws_mqtt_client_unsubscribe (filter_alloc_ok : Bool)
    (subscriptions : List TopicFilter) (filter : TopicFilter) :
    UnsubscribeOutcome :=
  if !filter_alloc_ok then
    { result := AWS_OP_ERR, subscriptions := subscriptions, request := none }
  else if filter ∈ subscriptions then
    { result := AWS_OP_SUCCESS, subscriptions := subscriptions,
      request := some { send_request := SendFn.unsubscribeSend, on_complete := none } }
  else
    { result := AWS_OP_ERR, subscriptions := subscriptions, request := none }

/- ------------------------------------------------------------------
   s_publish_send / s_publish_complete / aws_mqtt_client_publish
   (src/source/mqtt.c:430-526)
   ------------------------------------------------------------------ -/

/-- enum aws_mqtt_qos, values 0, 1, 2. -/
inductive QoS where
  | atMostOnce
  | atLeastOnce
  | exactlyOnce
  deriving DecidableEq, Repr

/-- struct publish_task_arg (src/source/mqtt.c:430-439), restricted to
the fields s_publish_send and s_publish_complete read; has_on_complete
records whether the on_complete function pointer is non-NULL. -/
structure PublishTaskArg where
  topic : List Char
  qos : QoS
  retain : Bool
  payload : List Char
  has_on_complete : Bool
  deriving DecidableEq, Repr

/-- The PUBLISH packet as assembled by aws_mqtt_packet_publish_init
(called from src/source/mqtt.c:450-457 with dup = !is_first_attempt). -/
structure PacketPublish where
  retain : Bool
  qos : QoS
  dup : Bool
  topic : List Char
  message_id : Nat
  payload : List Char
  deriving DecidableEq, Repr

/-- External calls made by s_publish_send: success of
mqtt_get_message_for_packet, aws_mqtt_packet_publish_encode, and
aws_channel_slot_send_message. -/
structure SendOracle where
  get_message_ok : Bool
  encode_ok : Bool
  send_ok : Bool
  deriving DecidableEq, Repr

/-- Observable outcome of one s_publish_send invocation: the packet
written to the channel, when the write happened, and the bool returned
to the request tracker (true removes the request). -/
structure PublishSendOutcome where
  sent : Option PacketPublish
  result : Bool
  deriving DecidableEq, Repr

/-- src/source/mqtt.c:441-486.  For QoS 0 the message_id argument is
overwritten with 0 before packet init; the packet carries dup =
!is_first_attempt; failure of any external call returns true after
releasing the message; a successful write returns is_qos_0, so a QoS-0
request is reported complete right after the write and any other QoS
stays ongoing. -/
def s_publish_send (message_id : Nat) (is_first_attempt : Bool)
    (arg : PublishTaskArg) (io : SendOracle) : PublishSendOutcome :=
  let is_qos_0 : Bool := arg.qos = QoS.atMostOnce
  let mid := if is_qos_0 then 0 else message_id
  let publish : PacketPublish :=
    { retain := arg.retain, qos := arg.qos, dup := !is_first_attempt,
      topic := arg.topic, message_id := mid, payload := arg.payload }
  if !io.get_message_ok then { sent := none, result := true }
  else if !io.encode_ok then { sent := none, result := true }
  else if !io.send_ok then { sent := none, result := true }
  else { sent := some publish, result := is_qos_0 }

/-- src/source/mqtt.c:488-496.  Invoked by the tracker when the publish
request completes; calls arg->on_complete when the pointer is non-NULL,
then frees the arg.  Returns whether the user callback was invoked. -/
def s_publish_complete (arg : PublishTaskArg) : Bool :=
  arg.has_on_complete

/-- src/source/mqtt.c:498-526.  After allocating the publish_task_arg
(alloc_ok), registers the request with send_request = s_publish_send
and on_complete = s_publish_complete.  Returns the created request and
the int result. -/
def aws_mqtt_client_publish (alloc_ok : Bool) : Option CreateRequestArgs × Int :=
  if !alloc_ok then (none, AWS_OP_ERR)
  else
    (some { send_request := SendFn.publishSend,
            on_complete := some CompleteFn.publishComplete },
     AWS_OP_SUCCESS)

/- ------------------------------------------------------------------
   The outstanding-request tracker.
   src/include/aws/mqtt/private/client_impl.h:178-191 declares
   mqtt_create_request ("registers a new outstanding request ... and
   returns the message identifier to use (or 0 on error)") and
   mqtt_request_complete, but their bodies are not among the provided
   sources; only the table initialization is
   (src/source/mqtt.c:181-191).
   ------------------------------------------------------------------ -/

/-- Largest valid packet identifier: 65535 (u16). -/
def MAX_PACKET_ID : Nat := 65535

/-- Modelled from the spec: the outstanding-request index keyed by
message id, plus the monotonic allocation counter (spec.md §3
Packet-ID space; the bodies of mqtt_create_request and
mqtt_request_complete are missing from the provided sources). -/
structure Tracker where
  next_id : Nat
  outstanding : List Nat
  deriving DecidableEq, Repr

/-- Modelled from the spec: the successor of a packet id under
wrap-around in 1..=65535, skipping the reserved id 0. -/
def next_candidate (n : Nat) : Nat :=
  if n ≥ MAX_PACKET_ID then 1 else n + 1

/-- Modelled from the spec: search from a candidate id for one not
currently in the outstanding index, trying at most fuel candidates;
0 signals exhaustion (the error return of mqtt_create_request). -/
def find_free_id (outstanding : List Nat) : Nat → Nat → Nat
  | 0, _ => 0
  | fuel + 1, cand =>
      if cand ∈ outstanding then find_free_id outstanding fuel (next_candidate cand)
      else cand

/-- Modelled from the spec: mqtt_create_request allocates a fresh
non-zero id by the monotonic-counter-with-skip policy (spec.md §3), and
on success registers the request in the outstanding index; the header
comment says it returns the message identifier to use, or 0 on error.
Returns the allocated id and the new tracker state. -/
def mqtt_create_request (t : Tracker) : Nat × Tracker :=
  let id := find_free_id t.outstanding MAX_PACKET_ID (next_candidate t.next_id)
  if id = 0 then (0, t)
  else (id, { next_id := id, outstanding := id :: t.outstanding })

/-- Modelled from the spec: mqtt_request_complete removes the entry
with the given message id from the outstanding index (spec.md §4.3 Ack
reception; unknown ids are dropped, so erase of an absent id is a
no-op). -/
def mqtt_request_complete (t : Tracker) (message_id : Nat) : Tracker :=
  { t with outstanding := t.outstanding.erase message_id }

/-- The claimed invariant of the outstanding index: keys are pairwise
distinct, non-zero, and within the u16 packet-id space. -/
def TrackerInv (t : Tracker) : Prop :=
  t.outstanding.Nodup ∧ ∀ i ∈ t.outstanding, 1 ≤ i ∧ i ≤ MAX_PACKET_ID

instance (t : Tracker) : Decidable (TrackerInv t) := by
  unfold TrackerInv
  infer_instance

/- ==================================================================
   Helper lemmas
   ================================================================== -/

/-- uint64_t subtraction agrees with Nat subtraction when no wrap
occurs. -/
theorem u64_sub_of_le (a b : Nat) (hba : b ≤ a) (ha : a < U64_MOD) :
    u64_sub a b = a - b := by
  have hb : b < U64_MOD := lt_of_le_of_lt hba ha
  have hmod : U64_MOD = 18446744073709551616 := by norm_num [U64_MOD]
  simp only [u64_sub, hmod] at *
  omega

/-- next_candidate always lands in the valid packet-id range. -/
theorem next_candidate_range (n : Nat) :
    1 ≤ next_candidate n ∧ next_candidate n ≤ MAX_PACKET_ID := by
  unfold next_candidate MAX_PACKET_ID
  split <;> omega

/-- find_free_id returns 0 or a valid id absent from the index. -/
theorem find_free_id_spec (outstanding : List Nat) :
    ∀ fuel cand, 1 ≤ cand → cand ≤ MAX_PACKET_ID →
      find_free_id outstanding fuel cand = 0
      ∨ (1 ≤ find_free_id outstanding fuel cand
         ∧ find_free_id outstanding fuel cand ≤ MAX_PACKET_ID
         ∧ find_free_id outstanding fuel cand ∉ outstanding) := by
  intro fuel
  induction fuel with
  | zero =>
      intro cand _ _
      left
      rfl
  | succ m ih =>
      intro cand h1 h2
      by_cases hmem : cand ∈ outstanding
      · have hstep : find_free_id outstanding (m + 1) cand
            = find_free_id outstanding m (next_candidate cand) := by
          simp [find_free_id, hmem]
        rw [hstep]
        exact ih (next_candidate cand) (next_candidate_range cand).1
          (next_candidate_range cand).2
      · have hstep : find_free_id outstanding (m + 1) cand = cand := by
          simp [find_free_id, hmem]
        rw [hstep]
        exact Or.inr ⟨h1, h2, hmem⟩

/- ==================================================================
   Claim theorems
   ================================================================== -/

/-- C1 counterexample: with the filter-copy allocation succeeding and
an empty subscriptions table, unsubscribing an unknown filter returns
AWS_OP_ERR, which differs from AWS_OP_SUCCESS — refuting the claim that
unsubscribe of an unknown filter returns SUCCESS. -/
theorem unsubscribe_unknown_counterexample :
    [['a']] ∉ ([] : List TopicFilter)
    ∧ (aws_mqtt_client_unsubscribe true [] [['a']]).result = AWS_OP_ERR
    ∧ AWS_OP_ERR ≠ AWS_OP_SUCCESS := by
  decide

/-- C1 (amended): for every filter with no subscription in the
connection's table, aws_mqtt_client_unsubscribe returns AWS_OP_ERR,
creates no request, and leaves the table unchanged (the absent-element
branch jumps to handle_error, src/source/mqtt.c:410-412, 421-427). -/
theorem unsubscribe_unknown_returns_error (subscriptions : List TopicFilter)
    (filter : TopicFilter) (hnotin : filter ∉ subscriptions) :
    (aws_mqtt_client_unsubscribe true subscriptions filter).result = AWS_OP_ERR
    ∧ (aws_mqtt_client_unsubscribe true subscriptions filter).request = none
    ∧ (aws_mqtt_client_unsubscribe true subscriptions filter).subscriptions
        = subscriptions := by
  simp [aws_mqtt_client_unsubscribe, hnotin]

/-- C1 witness: the amended theorem applied at the empty table and the
filter a. -/
theorem unsubscribe_unknown_returns_error_witness :
    [['a']] ∉ ([] : List TopicFilter)
    ∧ ((aws_mqtt_client_unsubscribe true [] [['a']]).result = AWS_OP_ERR
       ∧ (aws_mqtt_client_unsubscribe true [] [['a']]).request = none
       ∧ (aws_mqtt_client_unsubscribe true [] [['a']]).subscriptions = []) :=
  ⟨by decide, unsubscribe_unknown_returns_error [] [['a']] (by decide)⟩

/-- C2: on a non-first invocation of s_pingreq_send, assuming the retry
timer fires request_timeout_ns after the PINGREQ send (the tracker's
timer contract), the clock does not wrap, and timestamps are monotone,
mqtt_disconnect_impl(TIMEOUT) is issued iff no PINGRESP was recorded at
or after the PINGREQ send time — the timeout is measured from the send,
via the comparison at src/source/mqtt.c:573. -/
theorem pingreq_timeout_iff_no_pingresp_since_send (connection : PingConn)
    (io : PingOracle) (request_timeout_ns pingreq_send_time : Nat)
    (hclock : io.current_time = pingreq_send_time + request_timeout_ns)
    (hmax : io.current_time < U64_MOD)
    (hmono : connection.last_pingresp_timestamp ≤ io.current_time) :
    ((s_pingreq_send false connection io request_timeout_ns).disconnect_impl_called
        = some MqttError.timeout)
    ↔ connection.last_pingresp_timestamp < pingreq_send_time := by
  have hsub : u64_sub io.current_time connection.last_pingresp_timestamp
      = io.current_time - connection.last_pingresp_timestamp :=
    u64_sub_of_le _ _ hmono hmax
  simp only [s_pingreq_send, Bool.false_eq_true, if_false, hsub]
  split_ifs with h
  · exact iff_of_true rfl (by omega)
  · exact iff_of_false (by simp) (by omega)

/-- C2 witness: the theorem applied with last_pingresp_timestamp 0, a
PINGREQ sent at time 1, timeout 10, and the retry firing at time 11. -/
theorem pingreq_timeout_iff_witness :
    (s_pingreq_send false { last_pingresp_timestamp := 0 }
      { get_message_ok := true, encode_ok := true, send_ok := true, current_time := 11 }
      10).disconnect_impl_called = some MqttError.timeout :=
  (pingreq_timeout_iff_no_pingresp_since_send
    { last_pingresp_timestamp := 0 }
    { get_message_ok := true, encode_ok := true, send_ok := true, current_time := 11 }
    10 1 rfl (by norm_num [U64_MOD]) (by norm_num)).mpr (by norm_num)

/-- C3: for a QoS-0 publish whose external calls succeed,
s_publish_send encodes the PUBLISH packet with message_id 0 whatever id
the tracker allocated, returns true so the request is reported complete
immediately after the write (src/source/mqtt.c:444-447, 477-478);
s_publish_complete then invokes the user on_complete when one was
supplied, and aws_mqtt_client_publish registered s_publish_complete as
the request's on_complete (src/source/mqtt.c:523). -/
theorem publish_qos0_fire_and_forget (message_id : Nat) (is_first_attempt : Bool)
    (arg : PublishTaskArg) (io : SendOracle)
    (hq : arg.qos = QoS.atMostOnce)
    (hio : io.get_message_ok = true ∧ io.encode_ok = true ∧ io.send_ok = true) :
    (s_publish_send message_id is_first_attempt arg io).sent =
        some { retain := arg.retain, qos := arg.qos, dup := !is_first_attempt,
               topic := arg.topic, message_id := 0, payload := arg.payload }
    ∧ (s_publish_send message_id is_first_attempt arg io).result = true
    ∧ (arg.has_on_complete = true → s_publish_complete arg = true)
    ∧ (aws_mqtt_client_publish true).1 =
        some { send_request := SendFn.publishSend,
               on_complete := some CompleteFn.publishComplete } := by
  obtain ⟨h1, h2, h3⟩ := hio
  refine ⟨?_, ?_, ?_, ?_⟩
  · simp [s_publish_send, h1, h2, h3, hq]
  · simp [s_publish_send, h1, h2, h3, hq]
  · intro h
    simpa [s_publish_complete] using h
  · simp [aws_mqtt_client_publish]

/-- C3 witness: the theorem applied to a concrete QoS-0 publish of
payload p on topic t with allocated id 7. -/
theorem publish_qos0_fire_and_forget_witness :
    ((⟨['t'], QoS.atMostOnce, false, ['p'], true⟩ : PublishTaskArg).qos
        = QoS.atMostOnce
     ∧ ((true : Bool) = true ∧ (true : Bool) = true ∧ (true : Bool) = true))
    ∧ ((s_publish_send 7 true ⟨['t'], QoS.atMostOnce, false, ['p'], true⟩
          ⟨true, true, true⟩).sent =
        some { retain := false, qos := QoS.atMostOnce, dup := !true,
               topic := ['t'], message_id := 0, payload := ['p'] }
       ∧ (s_publish_send 7 true ⟨['t'], QoS.atMostOnce, false, ['p'], true⟩
            ⟨true, true, true⟩).result = true
       ∧ ((⟨['t'], QoS.atMostOnce, false, ['p'], true⟩ : PublishTaskArg).has_on_complete
            = true →
          s_publish_complete ⟨['t'], QoS.atMostOnce, false, ['p'], true⟩ = true)
       ∧ (aws_mqtt_client_publish true).1 =
          some { send_request := SendFn.publishSend,
                 on_complete := some CompleteFn.publishComplete }) :=
  ⟨⟨rfl, rfl, rfl, rfl⟩,
   publish_qos0_fire_and_forget 7 true ⟨['t'], QoS.atMostOnce, false, ['p'], true⟩
     ⟨true, true, true⟩ rfl ⟨rfl, rfl, rfl⟩⟩

/-- C4 counterexample: the mqtt_create_request call made by
aws_mqtt_client_ping passes NULL in the on_complete position
(src/source/mqtt.c:584), so no completion callback is registered with
the created request — refuting the claim that one is registered and
fires on PINGRESP. -/
theorem ping_registers_no_on_complete :
    (aws_mqtt_client_ping.1.on_complete).isSome = false := by
  decide

/-- C4 (amended): aws_mqtt_client_ping creates a request whose send
function is s_pingreq_send and whose on_complete is NULL (no completion
callback is registered), and returns AWS_OP_SUCCESS. -/
theorem ping_request_shape :
    aws_mqtt_client_ping =
      ({ send_request := SendFn.pingreqSend, on_complete := none },
       AWS_OP_SUCCESS) := by
  decide

/-- C5 counterexample: the filter a/#/b is malformed under the spec
predicate (the multi-level wildcard is not the final segment), yet
aws_mqtt_client_subscribe accepts it with AWS_OP_SUCCESS when
allocations succeed — refuting the claim that malformed filters are
rejected with PROTOCOL_ERROR. -/
theorem subscribe_accepts_malformed_filter :
    spec_filter_valid [['a'], ['#'], ['b']] = false
    ∧ (aws_mqtt_client_subscribe
        { impl_alloc_ok := true, filter_alloc_ok := true, put_ok := true }
        [] [['a'], ['#'], ['b']]).result = AWS_OP_SUCCESS
    ∧ AWS_OP_SUCCESS ≠ AWS_OP_ERR := by
  decide

/-- C5 (amended): aws_mqtt_client_subscribe performs no topic-filter
validation at all: every filter — malformed ones included — is accepted
with AWS_OP_SUCCESS, inserted into the subscriptions table, and a
subscribe request is created, provided the allocation and insertion
steps succeed; no PROTOCOL_ERROR path exists (src/source/mqtt.c:297-346). -/
theorem subscribe_no_filter_validation (subscriptions : List TopicFilter)
    (topic_filter : TopicFilter) (io : SubscribeOracle)
    (h1 : io.impl_alloc_ok = true) (h2 : io.filter_alloc_ok = true)
    (h3 : io.put_ok = true) :
    (aws_mqtt_client_subscribe io subscriptions topic_filter).result = AWS_OP_SUCCESS
    ∧ topic_filter ∈ (aws_mqtt_client_subscribe io subscriptions topic_filter).subscriptions
    ∧ (aws_mqtt_client_subscribe io subscriptions topic_filter).request =
        some { send_request := SendFn.subscribeSend, on_complete := none } := by
  refine ⟨?_, ?_, ?_⟩ <;> simp only [aws_mqtt_client_subscribe, h1, h2, h3]
  · simp
  · by_cases hmem : topic_filter ∈ subscriptions <;> simp [hmem]
  · simp

/-- C5 witness: the amended theorem applied to the malformed filter
a/#/b at the empty table with all allocations succeeding. -/
theorem subscribe_no_filter_validation_witness :
    ((true : Bool) = true ∧ (true : Bool) = true ∧ (true : Bool) = true)
    ∧ ((aws_mqtt_client_subscribe ⟨true, true, true⟩ [] [['a'], ['#'], ['b']]).result
          = AWS_OP_SUCCESS
       ∧ [['a'], ['#'], ['b']]
          ∈ (aws_mqtt_client_subscribe ⟨true, true, true⟩ [] [['a'], ['#'], ['b']]).subscriptions
       ∧ (aws_mqtt_client_subscribe ⟨true, true, true⟩ [] [['a'], ['#'], ['b']]).request
          = some { send_request := SendFn.subscribeSend, on_complete := none }) :=
  ⟨⟨rfl, rfl, rfl⟩,
   subscribe_no_filter_validation [] [['a'], ['#'], ['b']] ⟨true, true, true⟩ rfl rfl rfl⟩

/-- C6: when any allocation or insertion step of
aws_mqtt_client_subscribe fails (impl allocation, filter-string
allocation, or hash-table put), the operation returns AWS_OP_ERR, the
subscriptions table is left exactly as it was, and no request is
created (the handle_error path, src/source/mqtt.c:334-345, frees only
what was allocated; was_created is still 0 on every path that reaches
it). -/
theorem subscribe_error_atomicity (io : SubscribeOracle)
    (subscriptions : List TopicFilter) (topic_filter : TopicFilter)
    (hfail : io.impl_alloc_ok = false ∨ io.filter_alloc_ok = false
             ∨ io.put_ok = false) :
    (aws_mqtt_client_subscribe io subscriptions topic_filter).result = AWS_OP_ERR
    ∧ (aws_mqtt_client_subscribe io subscriptions topic_filter).subscriptions
        = subscriptions
    ∧ (aws_mqtt_client_subscribe io subscriptions topic_filter).request = none := by
  rcases io with ⟨a, b, c⟩
  cases a <;> cases b <;> cases c <;>
    simp_all [aws_mqtt_client_subscribe]

/-- C6 witness: the theorem applied with the filter-string allocation
failing on a one-entry table. -/
theorem subscribe_error_atomicity_witness :
    ((true : Bool) = false ∨ (false : Bool) = false ∨ (true : Bool) = false)
    ∧ ((aws_mqtt_client_subscribe ⟨true, false, true⟩ [[['a']]] [['b']]).result
          = AWS_OP_ERR
       ∧ (aws_mqtt_client_subscribe ⟨true, false, true⟩ [[['a']]] [['b']]).subscriptions
          = [[['a']]]
       ∧ (aws_mqtt_client_subscribe ⟨true, false, true⟩ [[['a']]] [['b']]).request
          = none) :=
  ⟨Or.inr (Or.inl rfl),
   subscribe_error_atomicity ⟨true, false, true⟩ [[['a']]] [['b']]
     (Or.inr (Or.inl rfl))⟩

/-- C7: aws_mqtt_load_error_strings is idempotent — after any positive
number of calls starting from process startup, the static guard is set
and aws_register_error_info has been called exactly once
(src/source/mqtt.c:591-594). -/
theorem load_error_strings_registers_once (n : Nat) (hn : 1 ≤ n) :
    aws_mqtt_load_error_strings^[n] errorStringsInit
      = { s_error_strings_loaded := true, register_calls := 1 } := by
  obtain ⟨m, rfl⟩ : ∃ m, n = m + 1 := ⟨n - 1, by omega⟩
  rw [Function.iterate_succ_apply]
  have hone : aws_mqtt_load_error_strings errorStringsInit
      = { s_error_strings_loaded := true, register_calls := 1 } := rfl
  have hfix : aws_mqtt_load_error_strings
      { s_error_strings_loaded := true, register_calls := 1 }
      = { s_error_strings_loaded := true, register_calls := 1 } := rfl
  rw [hone, Function.iterate_fixed hfix]

/-- C7 witness: the theorem applied to a sequence of three calls. -/
theorem load_error_strings_registers_once_witness :
    1 ≤ 3
    ∧ aws_mqtt_load_error_strings^[3] errorStringsInit
        = { s_error_strings_loaded := true, register_calls := 1 } :=
  ⟨by norm_num, load_error_strings_registers_once 3 (by norm_num)⟩

/-- C8 (spec-modelled tracker): the outstanding-index invariant — keys
pairwise distinct, non-zero and within 1..=65535 — is preserved both by
mqtt_create_request (which also returns the tracker unchanged when it
signals error with id 0) and by mqtt_request_complete. -/
theorem tracker_invariant_preserved (t : Tracker) (message_id : Nat)
    (hInv : TrackerInv t) :
    TrackerInv (mqtt_create_request t).2
    ∧ ((mqtt_create_request t).1 = 0 → (mqtt_create_request t).2 = t)
    ∧ ((mqtt_create_request t).1 ≠ 0 →
        (mqtt_create_request t).1 ∉ t.outstanding)
    ∧ TrackerInv (mqtt_request_complete t message_id) := by
  obtain ⟨hnd, hrange⟩ := hInv
  have hspec := find_free_id_spec t.outstanding MAX_PACKET_ID
    (next_candidate t.next_id) (next_candidate_range t.next_id).1
    (next_candidate_range t.next_id).2
  by_cases h0 : find_free_id t.outstanding MAX_PACKET_ID (next_candidate t.next_id) = 0
  · refine ⟨?_, ?_, ?_, ?_⟩
    · simpa [mqtt_create_request, h0] using And.intro hnd hrange
    · intro _
      simp [mqtt_create_request, h0]
    · intro hne
      exact absurd (by simp [mqtt_create_request, h0]) hne
    · exact ⟨hnd.erase message_id,
        fun i hi => hrange i (List.mem_of_mem_erase hi)⟩
  · rcases hspec with hz | ⟨ha, hb, hc⟩
    · exact absurd hz h0
    · refine ⟨?_, ?_, ?_, ?_⟩
      · refine ⟨?_, ?_⟩
        · simpa [mqtt_create_request, h0] using List.nodup_cons.mpr ⟨hc, hnd⟩
        · intro i hi
          simp only [mqtt_create_request, h0, if_false] at hi
          rcases List.mem_cons.mp hi with rfl | hi
          · exact ⟨ha, hb⟩
          · exact hrange i hi
      · intro hzero
        simp [mqtt_create_request, h0] at hzero
      · intro _
        simpa [mqtt_create_request, h0] using hc
      · exact ⟨hnd.erase message_id,
          fun i hi => hrange i (List.mem_of_mem_erase hi)⟩

/-- C8 witness: the theorem applied to the freshly initialized tracker
(empty index, counter 0) and completion of id 1. -/
theorem tracker_invariant_preserved_witness :
    TrackerInv { next_id := 0, outstanding := [] }
    ∧ (TrackerInv (mqtt_create_request { next_id := 0, outstanding := [] }).2
       ∧ ((mqtt_create_request { next_id := 0, outstanding := [] }).1 = 0 →
            (mqtt_create_request { next_id := 0, outstanding := [] }).2
              = { next_id := 0, outstanding := [] })
       ∧ ((mqtt_create_request { next_id := 0, outstanding := [] }).1 ≠ 0 →
            (mqtt_create_request { next_id := 0, outstanding := [] }).1
              ∉ ({ next_id := 0, outstanding := [] } : Tracker).outstanding)
       ∧ TrackerInv (mqtt_request_complete { next_id := 0, outstanding := [] } 1)) :=
  ⟨by decide, tracker_invariant_preserved { next_id := 0, outstanding := [] } 1
    (by decide)⟩

/-- C9: aws_mqtt_client_connection_disconnect always returns
AWS_OP_SUCCESS, and mqtt_disconnect_impl is invoked iff the connection
pointer is non-NULL and its channel slot is non-NULL — in particular a
NULL connection or a slotless connection produces no state change
(src/source/mqtt.c:240-247). -/
theorem disconnect_null_or_no_slot_noop (connection : Option DisconnectConn) :
    (aws_mqtt_client_connection_disconnect connection).result = AWS_OP_SUCCESS
    ∧ ((aws_mqtt_client_connection_disconnect connection).disconnect_impl_called ≠ none
        ↔ ∃ c, connection = some c ∧ c.has_slot = true) := by
  match connection with
  | none => simp [aws_mqtt_client_connection_disconnect]
  | some c =>
      by_cases h : c.has_slot = true <;>
        simp [aws_mqtt_client_connection_disconnect, h]

/-- C10: a non-first invocation of s_pingreq_send writes no message to
the channel and always returns true, completing the request so the
tracker never retransmits a PINGREQ; a first invocation writes at most
one PINGREQ (src/source/mqtt.c:528-580). -/
theorem pingreq_at_most_one_send (connection : PingConn) (io : PingOracle)
    (request_timeout_ns : Nat) :
    (s_pingreq_send false connection io request_timeout_ns).messages_sent = 0
    ∧ (s_pingreq_send false connection io request_timeout_ns).result = true
    ∧ (s_pingreq_send true connection io request_timeout_ns).messages_sent ≤ 1 := by
  rcases io with ⟨g, e, s, ct⟩
  by_cases h : u64_sub ct connection.last_pingresp_timestamp > request_timeout_ns <;>
    cases g <;> cases e <;> cases s <;>
    simp [s_pingreq_send, h]
